import Mathlib

/-!
Shallow embedding of `compatibility_server/pip_checker.py`.

Modelling conventions:
* External `pip` subprocesses are modelled by a `CmdOut` record (exit code,
  captured stdout text, captured stderr text) supplied by an environment
  `PipEnv`; `subprocess.run` redirecting both streams to files becomes
  `runCommand`, which writes both texts into an explicit scratch-directory
  map `Fs` (file name to content) and returns the exit code, raising the
  structured `PipErrorData` when `raise_on_failure` is set and the exit code
  is non-zero — exactly `_OneshotPipCheck._run_command`.
* `json.loads` of the two `pip list --format=json` outputs is modelled at
  the external-contract level: the environment supplies the parse outcome
  (`Except String` for a possible decode failure) as a list of records with
  the optional fields the code reads via `dict.get`.
* The PyPI JSON API call is modelled by a response function: an HTTP error
  response (the only exception `_call_pypi_json_api` catches), any other
  exception (which propagates), or a parsed JSON document.
* Python exceptions are the `Except PyErr` monad, written out as explicit
  matches.  Python local variables that may be referenced before assignment
  (`latest_release` / `installed_release` in `_list`, which are only bound
  inside the `if 'releases' in result:` branch but read outside it) are
  carried in the loop state as `Option`-wrapped values whose `none` means
  "unbound": reading an unbound one is `UnboundLocalError`, modelled as
  `PyErr.nameError`.
* Python `dict` (insertion ordered, update-in-place) is an association list
  with `setKeyA`; `dict.get` is `lookupA`.
-/

/-- Association-list lookup; mirrors Python `dict.get` (`none` when the key is
absent). -/
def lookupA {κ α : Type} [DecidableEq κ] : List (κ × α) → κ → Option α
  | [], _ => none
  | (k', v) :: t, k => if k' = k then some v else lookupA t k

/-- Association-list update; mirrors Python `d[k] = v`: replaces the binding in
place when the key is present, otherwise appends (insertion order). -/
def setKeyA {κ α : Type} [DecidableEq κ] : List (κ × α) → κ → α → List (κ × α)
  | [], k, v => [(k, v)]
  | (k', v') :: t, k, v => if k' = k then (k, v) :: t else (k', v') :: setKeyA t k v

/-- The keys of an association list, in order. -/
def keysA {κ α : Type} (d : List (κ × α)) : List κ := d.map Prod.fst

/-- The scratch directory of one run: file name to file content.  The run owns
the directory exclusively (`tempfile.mkdtemp`), so file names are relative. -/
abbrev Fs := List (String × String)

/-- Reading a file back (`_OneshotPipCheck._read` / `os.path.getsize`);
`none` models `FileNotFoundError`. -/
def readFs (fs : Fs) (path : String) : Option String := lookupA fs path

/-- The `PipCheckResultType` enumeration of `pip_checker.py`. -/
inductive PipCheckResultType where
  | SUCCESS
  | INSTALL_ERROR
  | CHECK_WARNING
deriving DecidableEq, Repr

/-- The structured content of a raised `PipError` (command, exit code, path of
the captured-stderr file). -/
structure PipErrorData where
  command : List String
  returncode : Int
  stderr_path : String
deriving DecidableEq, Repr

/-- The exceptions the embedded code can raise: a structured `PipError`, an
`UnboundLocalError` naming the variable, a non-HTTP failure of the registry
call (network error, JSON decode error, ...), a JSON decode failure of a
`pip list` output, or a missing file on read-back. -/
inductive PyErr where
  | pip (e : PipErrorData)
  | nameError (v : String)
  | registryError (msg : String)
  | jsonError (msg : String)
  | fileError (path : String)
deriving DecidableEq, Repr

/-- One upload record inside a `releases` entry of the PyPI JSON document;
the code reads its optional `upload_time` field. -/
structure UploadRec where
  upload_time : Option String
deriving DecidableEq, Repr

/-- The PyPI JSON document as far as `_list` inspects it: an optional
`releases` mapping from version string to the list of upload records. -/
structure PypiJson where
  releases : Option (List (Option String × List UploadRec))
deriving DecidableEq, Repr

/-- Outcome of one registry HTTP request: an HTTP error response (the only
exception `_call_pypi_json_api` catches), any other exception, or a parsed
document. -/
inductive RegistryResponse where
  | httpError
  | otherError (msg : String)
  | ok (doc : PypiJson)
deriving DecidableEq, Repr

/-- One element of the parsed `pip list --format=json` output; fields are
optional because the code reads them with `dict.get`. -/
structure PkgEntry where
  name : Option String
  version : Option String
deriving DecidableEq, Repr

/-- One element of the parsed `pip list -o --format=json` output. -/
structure OutdatedEntry where
  name : Option String
  latest_version : Option String
deriving DecidableEq, Repr

/-- The per-package snapshot `_list` builds (`pkg_info` in the source): the
six fields of each `dependency_info` entry. -/
structure PkgInfo where
  installed_version : Option String
  installed_version_time : Option String
  latest_version : Option String
  current_time : String
  latest_version_time : Option String
  is_latest : Bool
deriving DecidableEq, Repr

/-- The `dependency_info` mapping (`pkg_version_date` in the source). -/
abbrev DepInfo := List (Option String × PkgInfo)

/-- The `PipCheckResult` value object. -/
structure PipCheckResult where
  packages : List String
  result_type : PipCheckResultType
  result_text : Option String
  dependency_info : Option DepInfo
deriving DecidableEq, Repr

/-- `PipCheckResult.with_extra_attrs`: same result with `dependency_info`
replaced. -/
def with_extra_attrs (r : PipCheckResult) (dependency_info : Option DepInfo) :
    PipCheckResult :=
  { packages := r.packages
    result_type := r.result_type
    result_text := r.result_text
    dependency_info := dependency_info }

/-- Captured behaviour of one external command: its exit code and the texts it
writes on the two streams. -/
structure CmdOut where
  returncode : Int
  stdout : String
  stderr : String
deriving DecidableEq, Repr

/-- `_OneshotPipCheck._run_command`: write both streams to the two given
files, then either raise `PipError` (non-zero exit with `raise_on_failure`)
or return the exit code. -/
def runCommand (fs : Fs) (command : List String) (stdout_path stderr_path : String)
    (out : CmdOut) (raise_on_failure : Bool) : Fs × Except PipErrorData Int :=
  let fs1 := setKeyA fs stdout_path out.stdout
  let fs2 := setKeyA fs1 stderr_path out.stderr
  if out.returncode ≠ 0 ∧ raise_on_failure = true then
    (fs2, .error { command := command, returncode := out.returncode,
                   stderr_path := stderr_path })
  else
    (fs2, .ok out.returncode)

/-- `_OneshotPipCheck._call_pypi_json_api`: catches exactly the HTTP error
response (returning `none`); any other failure propagates. -/
def call_pypi_json_api (registry : Option String → Option String → RegistryResponse)
    (pkg_name pkg_version : Option String) : Except PyErr (Option PypiJson) :=
  match registry pkg_name pkg_version with
  | .httpError => .ok none
  | .otherError m => .error (.registryError m)
  | .ok doc => .ok (some doc)

/-- The `outdated_pkgs` dictionary built from the `pip list -o` output. -/
def buildOutdated (pip_list_latest_result : List OutdatedEntry) :
    List (Option String × Option String) :=
  pip_list_latest_result.foldl (fun d pkg => setKeyA d pkg.name pkg.latest_version) []

/-- The mutable locals of the `for pkg in pip_list_result` loop of `_list` that
survive an iteration: the report built so far, the two release locals (whose
outer `Option` is "bound at all?" — `none` means Python would raise
`UnboundLocalError` on read), and how many `datetime.now()` calls happened. -/
structure ListState where
  pkg_version_date : DepInfo
  latest_release : Option (Option (List UploadRec))
  installed_release : Option (Option (List UploadRec))
  idx : Nat
deriving Repr

/-- The `latest_version` / `is_latest` reconciliation of `_list`:
`latest_version` starts as the installed version and `is_latest` as true;
when the name is a key of `outdated_pkgs` the latest version is taken from
there and `is_latest` is cleared only when it differs from the installed
version. -/
def mergeLatest (outdated_pkgs : List (Option String × Option String))
    (pkg_name installed_version : Option String) : Option String × Bool :=
  match lookupA outdated_pkgs pkg_name with
  | none => (installed_version, true)
  | some lv => if lv ≠ installed_version then (lv, false) else (lv, true)

/-- One iteration of the `for pkg in pip_list_result` loop of `_list`. -/
def listIter (registry : Option String → Option String → RegistryResponse)
    (now : Nat → String) (outdated_pkgs : List (Option String × Option String))
    (st : ListState) (pkg : PkgEntry) : Except PyErr ListState :=
  let pkg_name := pkg.name
  let installed_version := pkg.version
  let latest_version := (mergeLatest outdated_pkgs pkg_name installed_version).1
  let is_latest := (mergeLatest outdated_pkgs pkg_name installed_version).2
  match call_pypi_json_api registry pkg_name latest_version with
  | .error e => .error e
  | .ok none =>
    .ok { pkg_version_date := setKeyA st.pkg_version_date pkg_name
            { installed_version := installed_version
              installed_version_time := none
              latest_version := latest_version
              current_time := now st.idx
              latest_version_time := none
              is_latest := is_latest }
          latest_release := st.latest_release
          installed_release := st.installed_release
          idx := st.idx + 1 }
  | .ok (some result) =>
    let (latest_release, installed_release) :=
      match result.releases with
      | some rel => (some (lookupA rel latest_version), some (lookupA rel installed_version))
      | none => (st.latest_release, st.installed_release)
    match latest_release with
    | none => .error (.nameError "latest_release")
    | some lr =>
      let latest_version_time :=
        match lr with
        | some (r :: _) => r.upload_time
        | _ => none
      match installed_release with
      | none => .error (.nameError "installed_release")
      | some ir =>
        let installed_version_time :=
          match ir with
          | some (r :: _) => r.upload_time
          | _ => none
        .ok { pkg_version_date := setKeyA st.pkg_version_date pkg_name
                { installed_version := installed_version
                  installed_version_time := installed_version_time
                  latest_version := latest_version
                  current_time := now st.idx
                  latest_version_time := latest_version_time
                  is_latest := is_latest }
              latest_release := latest_release
              installed_release := installed_release
              idx := st.idx + 1 }

/-- The whole loop of `_list`, iterated over the installed-package list. -/
def listLoop (registry : Option String → Option String → RegistryResponse)
    (now : Nat → String) (outdated_pkgs : List (Option String × Option String)) :
    ListState → List PkgEntry → Except PyErr ListState
  | st, [] => .ok st
  | st, pkg :: rest =>
    match listIter registry now outdated_pkgs st pkg with
    | .error e => .error e
    | .ok st' => listLoop registry now outdated_pkgs st' rest

/-- `_OneshotPipCheck._list`, over the already-parsed outputs of the two
`pip list` commands (whose exit codes the source ignores:
`raise_on_failure=False` and the return value is dropped). -/
def listStep (registry : Option String → Option String → RegistryResponse)
    (now : Nat → String) (pip_list_result : List PkgEntry)
    (pip_list_latest_result : List OutdatedEntry) : Except PyErr DepInfo :=
  match listLoop registry now (buildOutdated pip_list_latest_result)
      { pkg_version_date := [], latest_release := none,
        installed_release := none, idx := 0 } pip_list_result with
  | .error e => .error e
  | .ok st => .ok st.pkg_version_date

/-- `_OneshotPipCheck._freeze` as invoked by `run`: stdout goes to the
requirements file, `raise_on_failure` defaults to true. -/
def freeze_step (pip_command : List String) (fs : Fs) (out : CmdOut) :
    Fs × Except PipErrorData Int :=
  runCommand fs (pip_command ++ ["freeze"]) "requirements-old.txt"
    "freeze-error.txt" out true

/-- `_OneshotPipCheck._uninstall` as invoked by `run` (`raise_on_failure`
defaults to true). -/
def uninstall_step (pip_command : List String) (fs : Fs) (out : CmdOut) :
    Fs × Except PipErrorData Int :=
  runCommand fs (pip_command ++ ["uninstall", "--yes", "-r", "requirements-old.txt"])
    "uninstall-out.txt" "uninstall-error.txt" out true

/-- `_OneshotPipCheck._install`: non-fatal run of `pip install -U <packages>`;
a non-zero exit is classified as `INSTALL_ERROR` with the stderr file's
content as result text. -/
def install_step (pip_command packages : List String) (fs : Fs) (out : CmdOut) :
    Fs × Except PyErr PipCheckResult :=
  match runCommand fs (pip_command ++ ["install", "-U"] ++ packages)
      "install-out.txt" "install-error.txt" out false with
  | (fs1, .error e) => (fs1, .error (.pip e))
  | (fs1, .ok returncode) =>
    if returncode ≠ 0 then
      match readFs fs1 "install-error.txt" with
      | none => (fs1, .error (.fileError "install-error.txt"))
      | some txt =>
        (fs1, .ok { packages := packages, result_type := .INSTALL_ERROR,
                    result_text := some txt, dependency_info := none })
    else
      (fs1, .ok { packages := packages, result_type := .SUCCESS,
                  result_text := none, dependency_info := none })

/-- `_OneshotPipCheck._check`: non-fatal run of `pip check`; a non-zero exit
is classified as `CHECK_WARNING` with the stdout file's content as result
text. -/
def check_step (pip_command packages : List String) (fs : Fs) (out : CmdOut) :
    Fs × Except PyErr PipCheckResult :=
  match runCommand fs (pip_command ++ ["check"]) "check-out.txt"
      "check-error.txt" out false with
  | (fs1, .error e) => (fs1, .error (.pip e))
  | (fs1, .ok returncode) =>
    if returncode ≠ 0 then
      match readFs fs1 "check-out.txt" with
      | none => (fs1, .error (.fileError "check-out.txt"))
      | some txt =>
        (fs1, .ok { packages := packages, result_type := .CHECK_WARNING,
                    result_text := some txt, dependency_info := none })
    else
      (fs1, .ok { packages := packages, result_type := .SUCCESS,
                  result_text := none, dependency_info := none })

/-- The environment of one run: behaviour of each external pip command, parse
outcome of the two `pip list` JSON outputs, the registry's response function
and the wall clock (indexed by how many `datetime.now()` calls happened). -/
structure PipEnv where
  freeze : CmdOut
  uninstall : CmdOut
  install : CmdOut
  check : CmdOut
  installedParse : Except String (List PkgEntry)
  outdatedParse : Except String (List OutdatedEntry)
  registry : Option String → Option String → RegistryResponse
  now : Nat → String

/-- The `clean` prologue of `run`: freeze into `requirements-old.txt`, and if
that file is non-empty (`os.path.getsize(...) > 0`), uninstall everything it
lists.  Both commands are must-succeed. -/
def cleanPhase (pip_command : List String) (clean : Bool) (env : PipEnv) :
    Except PyErr Fs :=
  if clean then
    match freeze_step pip_command [] env.freeze with
    | (_, .error e) => .error (.pip e)
    | (fs1, .ok _) =>
      match readFs fs1 "requirements-old.txt" with
      | none => .error (.fileError "requirements-old.txt")
      | some content =>
        if content.length > 0 then
          match uninstall_step pip_command fs1 env.uninstall with
          | (_, .error e) => .error (.pip e)
          | (fs2, .ok _) => .ok fs2
        else .ok fs1
  else .ok []

/-- The enrichment step as `run` performs it: parse the two `pip list` JSON
outputs, then run `_list`'s loop. -/
def enrich (env : PipEnv) : Except PyErr DepInfo :=
  match env.installedParse with
  | .error m => .error (.jsonError m)
  | .ok installed =>
    match env.outdatedParse with
    | .error m => .error (.jsonError m)
    | .ok outdated => listStep env.registry env.now installed outdated

/-- `_OneshotPipCheck.run`: optional clean phase, install, enrichment when the
install did not fail, consistency check when the install succeeded, and the
final result assembled by `with_extra_attrs`. -/
def run (pip_command packages : List String) (clean : Bool) (env : PipEnv) :
    Except PyErr PipCheckResult :=
  match cleanPhase pip_command clean env with
  | .error e => .error e
  | .ok fs =>
    match install_step pip_command packages fs env.install with
    | (_, .error e) => .error e
    | (fs1, .ok install_result) =>
      match (if install_result.result_type ≠ PipCheckResultType.INSTALL_ERROR
             then (enrich env).map some else .ok none) with
      | .error e => .error e
      | .ok dependency_info =>
        match (if install_result.result_type = PipCheckResultType.SUCCESS
               then (check_step pip_command packages fs1 env.check).2
               else .ok install_result) with
        | .error e => .error e
        | .ok final_result => .ok (with_extra_attrs final_result dependency_info)

/-- The public entry point `pip_checker.check`. -/
def check (pip_command packages : List String) (clean : Bool) (env : PipEnv) :
    Except PyErr PipCheckResult :=
  run pip_command packages clean env


/-- The per-entry reconciliation property of C5: `is_latest` is value equality
of reported latest and installed versions, and a name absent from the
outdated mapping falls back to the installed version with `is_latest` true. -/
def latestProp (outdated_pkgs : List (Option String × Option String))
    (n : Option String) (info : PkgInfo) : Prop :=
  (info.is_latest = true ↔ info.latest_version = info.installed_version) ∧
  (lookupA outdated_pkgs n = none →
    info.latest_version = info.installed_version ∧ info.is_latest = true)

/-- Erase the `current_time` (`observed_at`) field of a snapshot. -/
def eraseT (info : PkgInfo) : PkgInfo := { info with current_time := "" }

/-- Erase the `current_time` field of every snapshot of a report. -/
def eraseD (d : DepInfo) : DepInfo := d.map (fun kv => (kv.1, eraseT kv.2))

/-- Two loop states that agree on everything except the recorded
`current_time` fields. -/
def stR (s1 s2 : ListState) : Prop :=
  eraseD s1.pkg_version_date = eraseD s2.pkg_version_date ∧
  s1.latest_release = s2.latest_release ∧
  s1.installed_release = s2.installed_release ∧
  s1.idx = s2.idx

/-- Lift `stR` to loop outcomes: equal errors, or related states. -/
def exR (x y : Except PyErr ListState) : Prop :=
  match x, y with
  | .error e1, .error e2 => e1 = e2
  | .ok t1, .ok t2 => stR t1 t2
  | _, _ => False

/-! Concrete environments used to exercise the definitions. -/

/-- Registry answering every query with an HTTP error response (not found). -/
def regHttp : Option String → Option String → RegistryResponse := fun _ _ => .httpError

/-- Registry failing every query with a non-HTTP (network-level) error. -/
def regErr : Option String → Option String → RegistryResponse :=
  fun _ _ => .otherError "connection refused"

/-- Registry answering every query with a document lacking a `releases` key. -/
def regNoRel : Option String → Option String → RegistryResponse :=
  fun _ _ => .ok { releases := none }

/-- Registry with release data for package `a` only; every other package gets
a well-formed document with no `releases` key. -/
def regStale : Option String → Option String → RegistryResponse :=
  fun n _ =>
    if n = some "a" then
      .ok { releases := some [(some "1.0", [{ upload_time := some "TA" }])] }
    else .ok { releases := none }

/-- A fixed wall clock. -/
def nowT : Nat → String := fun _ => "T"

/-- Environment of a fully successful run of one package `a`. -/
def envSuccess : PipEnv :=
  { freeze := { returncode := 0, stdout := "", stderr := "" }
    uninstall := { returncode := 0, stdout := "", stderr := "" }
    install := { returncode := 0, stdout := "installed a", stderr := "" }
    check := { returncode := 0, stdout := "", stderr := "" }
    installedParse := .ok [{ name := some "a", version := some "1.0" }]
    outdatedParse := .ok []
    registry := regHttp
    now := nowT }

/-- Like `envSuccess` but the consistency check exits 1 reporting a conflict
on stdout. -/
def envWarn : PipEnv :=
  { envSuccess with
      check := { returncode := 1, stdout := "conflict", stderr := "ignored" } }

/-- Like `envSuccess` but the install command exits 1 with stderr `boom`. -/
def envInstallFail : PipEnv :=
  { envSuccess with
      install := { returncode := 1, stdout := "", stderr := "boom" } }

/-- Like `envInstallFail` with different check, registry and parse components:
the run must not observe the difference. -/
def envInstallFail2 : PipEnv :=
  { envInstallFail with
      check := { returncode := 1, stdout := "conflict", stderr := "x" }
      registry := regErr
      installedParse := .error "not json" }

/-- Like `envSuccess` but every registry call fails at the network level. -/
def envRegErr : PipEnv := { envSuccess with registry := regErr }

/-- Environment where the clean phase reaches a non-empty freeze snapshot and
the uninstall command exits 1. -/
def envUninstallFail : PipEnv :=
  { envSuccess with
      freeze := { returncode := 0, stdout := "a==0.9", stderr := "" }
      uninstall := { returncode := 1, stdout := "", stderr := "cannot uninstall" } }

/-- Installed-package list: `a` at 1.0 and `b` at 2.0. -/
def instW : List PkgEntry :=
  [{ name := some "a", version := some "1.0" }, { name := some "b", version := some "2.0" }]

/-- Outdated list reporting `b` with a latest version equal to its installed
version. -/
def outdW : List OutdatedEntry := [{ name := some "b", latest_version := some "2.0" }]

/-- Outdated list naming only `c`, a package that is not installed. -/
def outdW9 : List OutdatedEntry := [{ name := some "c", latest_version := some "9" }]

/-- Snapshot of `a` produced under `regHttp` and `nowT`. -/
def infoAW : PkgInfo :=
  { installed_version := some "1.0", installed_version_time := none,
    latest_version := some "1.0", current_time := "T",
    latest_version_time := none, is_latest := true }

/-- Snapshot of `b` produced under `regHttp` and `nowT`. -/
def infoBW : PkgInfo :=
  { installed_version := some "2.0", installed_version_time := none,
    latest_version := some "2.0", current_time := "T",
    latest_version_time := none, is_latest := true }

/-- The report over `instW` under `regHttp`. -/
def mW : DepInfo := [(some "a", infoAW), (some "b", infoBW)]

/-- The report over `envSuccess`'s single installed package. -/
def depW : DepInfo := [(some "a", infoAW)]

/-- Snapshot of `a` produced under `regStale`: genuine release data. -/
def infoStaleA : PkgInfo :=
  { installed_version := some "1.0", installed_version_time := some "TA",
    latest_version := some "1.0", current_time := "T",
    latest_version_time := some "TA", is_latest := true }

/-- Snapshot of `b` produced under `regStale`: its registry document has no
`releases` key, yet both timestamps carry package `a`'s upload time, left
over in the loop's stale locals. -/
def infoStaleB : PkgInfo :=
  { installed_version := some "2.0", installed_version_time := some "TA",
    latest_version := some "2.0", current_time := "T",
    latest_version_time := some "TA", is_latest := true }

/-- Does the public entry point return a result value? -/
def returnsResult (x : Except PyErr PipCheckResult) : Bool :=
  match x with
  | .ok _ => true
  | .error _ => false

/-- Does the public entry point raise a structured `PipError`? -/
def raisesPip (x : Except PyErr PipCheckResult) : Bool :=
  match x with
  | .error (.pip _) => true
  | _ => false

/-- The result of `envWarn`'s run. -/
def rWarnW : PipCheckResult :=
  { packages := ["a"], result_type := .CHECK_WARNING,
    result_text := some "conflict", dependency_info := some depW }

/-- The result of `envSuccess`'s run. -/
def rSuccessW : PipCheckResult :=
  { packages := ["a"], result_type := .SUCCESS,
    result_text := none, dependency_info := some depW }

/-- The result of `envInstallFail`'s run. -/
def rInstallW : PipCheckResult :=
  { packages := ["broken"], result_type := .INSTALL_ERROR,
    result_text := some "boom", dependency_info := none }

/-- The PipError raised by `envUninstallFail`'s run. -/
def dUW : PipErrorData :=
  { command := ["pip3", "uninstall", "--yes", "-r", "requirements-old.txt"],
    returncode := 1, stderr_path := "uninstall-error.txt" }

/-! Association-list lemmas. -/

theorem keysA_nil {κ α : Type} : keysA ([] : List (κ × α)) = [] := rfl

theorem keysA_cons {κ α : Type} (k0 : κ) (v0 : α) (t : List (κ × α)) :
    keysA ((k0, v0) :: t) = k0 :: keysA t := rfl

theorem lookupA_setKeyA_self {κ α : Type} [DecidableEq κ] (d : List (κ × α))
    (k : κ) (v : α) : lookupA (setKeyA d k v) k = some v := by
  induction d with
  | nil => simp [setKeyA, lookupA]
  | cons hd t ih =>
    obtain ⟨k', v'⟩ := hd
    by_cases h : k' = k <;> simp [setKeyA, lookupA, h, ih]

theorem lookupA_setKeyA_ne {κ α : Type} [DecidableEq κ] (d : List (κ × α))
    (k k' : κ) (v : α) (h : k' ≠ k) :
    lookupA (setKeyA d k v) k' = lookupA d k' := by
  induction d with
  | nil => simp [setKeyA, lookupA, Ne.symm h]
  | cons hd t ih =>
    obtain ⟨k0, v0⟩ := hd
    by_cases h0 : k0 = k
    · subst h0
      simp [setKeyA, lookupA, h, Ne.symm h]
    · by_cases h1 : k0 = k' <;> simp [setKeyA, lookupA, h0, h1, h, ih]

theorem lookupA_setKeyA (d : List (Option String × PkgInfo))
    (k k' : Option String) (v : PkgInfo) :
    lookupA (setKeyA d k v) k' = if k' = k then some v else lookupA d k' := by
  by_cases h : k' = k
  · subst h; simp [lookupA_setKeyA_self]
  · simp [h, lookupA_setKeyA_ne d k k' v h]

theorem mem_keysA_setKeyA {κ α : Type} [DecidableEq κ] (d : List (κ × α))
    (k n : κ) (v : α) :
    n ∈ keysA (setKeyA d k v) ↔ n = k ∨ n ∈ keysA d := by
  induction d with
  | nil => simp [setKeyA, keysA]
  | cons hd t ih =>
    obtain ⟨k0, v0⟩ := hd
    by_cases h0 : k0 = k
    · subst h0
      have he : setKeyA ((k0, v0) :: t) k0 v = (k0, v) :: t := by simp [setKeyA]
      rw [he, keysA_cons, keysA_cons]
      simp only [List.mem_cons]
      tauto
    · have he : setKeyA ((k0, v0) :: t) k v = (k0, v0) :: setKeyA t k v := by
        simp [setKeyA, h0]
      rw [he, keysA_cons, keysA_cons]
      simp only [List.mem_cons, ih]
      tauto

theorem nodup_keysA_setKeyA {κ α : Type} [DecidableEq κ] (d : List (κ × α))
    (k : κ) (v : α) (h : (keysA d).Nodup) : (keysA (setKeyA d k v)).Nodup := by
  induction d with
  | nil => simp [setKeyA, keysA]
  | cons hd t ih =>
    obtain ⟨k0, v0⟩ := hd
    rw [keysA_cons, List.nodup_cons] at h
    by_cases h0 : k0 = k
    · subst h0
      have he : setKeyA ((k0, v0) :: t) k0 v = (k0, v) :: t := by simp [setKeyA]
      rw [he, keysA_cons, List.nodup_cons]
      exact h
    · have he : setKeyA ((k0, v0) :: t) k v = (k0, v0) :: setKeyA t k v := by
        simp [setKeyA, h0]
      rw [he, keysA_cons, List.nodup_cons]
      refine ⟨?_, ih h.2⟩
      intro hmem
      rcases (mem_keysA_setKeyA t k k0 v).mp hmem with h1 | h1
      · exact h0 h1
      · exact h.1 h1

theorem lookupA_isSome_iff_mem {κ α : Type} [DecidableEq κ]
    (d : List (κ × α)) (k : κ) : (lookupA d k).isSome = true ↔ k ∈ keysA d := by
  induction d with
  | nil => simp [lookupA, keysA]
  | cons hd t ih =>
    obtain ⟨k0, v0⟩ := hd
    rw [keysA_cons]
    by_cases h0 : k0 = k
    · subst h0; simp [lookupA]
    · rw [List.mem_cons]
      have he : lookupA ((k0, v0) :: t) k = lookupA t k := by simp [lookupA, h0]
      rw [he, ih]
      constructor
      · exact Or.inr
      · rintro (h1 | h1)
        · exact absurd h1.symm h0
        · exact h1

/-! Evaluation lemmas for the individual pip steps. -/

theorem runCommand_fst (fs : Fs) (command : List String)
    (stdout_path stderr_path : String) (out : CmdOut) (b : Bool) :
    (runCommand fs command stdout_path stderr_path out b).1 =
      setKeyA (setKeyA fs stdout_path out.stdout) stderr_path out.stderr := by
  unfold runCommand
  split <;> rfl

theorem runCommand_snd_noraise (fs : Fs) (command : List String)
    (stdout_path stderr_path : String) (out : CmdOut) :
    (runCommand fs command stdout_path stderr_path out false).2 =
      .ok out.returncode := by
  simp [runCommand]

theorem install_step_eval (pip_command packages : List String) (fs : Fs)
    (out : CmdOut) :
    install_step pip_command packages fs out =
      (setKeyA (setKeyA fs "install-out.txt" out.stdout) "install-error.txt" out.stderr,
       .ok (if out.returncode ≠ 0 then
              { packages := packages, result_type := .INSTALL_ERROR,
                result_text := some out.stderr, dependency_info := none }
            else
              { packages := packages, result_type := .SUCCESS,
                result_text := none, dependency_info := none })) := by
  by_cases h : out.returncode ≠ 0 <;>
    simp [install_step, runCommand, h, readFs, lookupA_setKeyA_self]

theorem check_step_eval (pip_command packages : List String) (fs : Fs)
    (out : CmdOut) :
    check_step pip_command packages fs out =
      (setKeyA (setKeyA fs "check-out.txt" out.stdout) "check-error.txt" out.stderr,
       .ok (if out.returncode ≠ 0 then
              { packages := packages, result_type := .CHECK_WARNING,
                result_text := some out.stdout, dependency_info := none }
            else
              { packages := packages, result_type := .SUCCESS,
                result_text := none, dependency_info := none })) := by
  by_cases h : out.returncode ≠ 0 <;>
    simp [check_step, runCommand, h, readFs,
      lookupA_setKeyA_ne (setKeyA fs "check-out.txt" out.stdout)
        "check-error.txt" "check-out.txt" out.stderr (by decide),
      lookupA_setKeyA_self]

theorem freeze_step_eval (pip_command : List String) (fs : Fs) (out : CmdOut) :
    freeze_step pip_command fs out =
      (setKeyA (setKeyA fs "requirements-old.txt" out.stdout) "freeze-error.txt" out.stderr,
       if out.returncode ≠ 0 then
         .error { command := pip_command ++ ["freeze"], returncode := out.returncode,
                  stderr_path := "freeze-error.txt" }
       else .ok out.returncode) := by
  by_cases h : out.returncode ≠ 0 <;> simp [freeze_step, runCommand, h]

theorem uninstall_step_eval (pip_command : List String) (fs : Fs) (out : CmdOut) :
    uninstall_step pip_command fs out =
      (setKeyA (setKeyA fs "uninstall-out.txt" out.stdout) "uninstall-error.txt" out.stderr,
       if out.returncode ≠ 0 then
         .error { command := pip_command ++ ["uninstall", "--yes", "-r", "requirements-old.txt"],
                  returncode := out.returncode, stderr_path := "uninstall-error.txt" }
       else .ok out.returncode) := by
  by_cases h : out.returncode ≠ 0 <;> simp [uninstall_step, runCommand, h]

theorem cleanPhase_false_eval (pip_command : List String) (env : PipEnv) :
    cleanPhase pip_command false env = .ok [] := rfl

theorem cleanPhase_true_eval (pip_command : List String) (env : PipEnv) :
    cleanPhase pip_command true env =
      (if env.freeze.returncode ≠ 0 then
        .error (.pip { command := pip_command ++ ["freeze"],
                       returncode := env.freeze.returncode,
                       stderr_path := "freeze-error.txt" })
      else if env.freeze.stdout.length > 0 then
        (if env.uninstall.returncode ≠ 0 then
          .error (.pip { command := pip_command ++ ["uninstall", "--yes", "-r", "requirements-old.txt"],
                         returncode := env.uninstall.returncode,
                         stderr_path := "uninstall-error.txt" })
        else
          .ok (setKeyA (setKeyA (setKeyA (setKeyA [] "requirements-old.txt" env.freeze.stdout)
                 "freeze-error.txt" env.freeze.stderr)
                 "uninstall-out.txt" env.uninstall.stdout)
                 "uninstall-error.txt" env.uninstall.stderr))
      else
        .ok (setKeyA (setKeyA [] "requirements-old.txt" env.freeze.stdout)
               "freeze-error.txt" env.freeze.stderr)) := by
  unfold cleanPhase
  rw [freeze_step_eval]
  by_cases hf : env.freeze.returncode ≠ 0
  · simp [hf]
  · have hr : readFs (setKeyA (setKeyA [] "requirements-old.txt" env.freeze.stdout)
        "freeze-error.txt" env.freeze.stderr) "requirements-old.txt" =
        some env.freeze.stdout := by
      rw [readFs, lookupA_setKeyA_ne _ "freeze-error.txt" "requirements-old.txt" _ (by decide),
        lookupA_setKeyA_self]
    by_cases hl : env.freeze.stdout.length > 0
    · by_cases hu : env.uninstall.returncode ≠ 0 <;>
        simp [hf, hr, hl, hu, uninstall_step_eval]
    · simp [hf, hr, hl]

theorem run_eval (pip_command packages : List String) (clean : Bool)
    (env : PipEnv) (fs : Fs) (hc : cleanPhase pip_command clean env = .ok fs) :
    run pip_command packages clean env =
      (if env.install.returncode ≠ 0 then
        .ok { packages := packages, result_type := .INSTALL_ERROR,
              result_text := some env.install.stderr, dependency_info := none }
      else
        match enrich env with
        | .error e => .error e
        | .ok d =>
          if env.check.returncode ≠ 0 then
            .ok { packages := packages, result_type := .CHECK_WARNING,
                  result_text := some env.check.stdout, dependency_info := some d }
          else
            .ok { packages := packages, result_type := .SUCCESS,
                  result_text := none, dependency_info := some d }) := by
  unfold run
  rw [hc]
  dsimp only
  rw [install_step_eval]
  by_cases hi : env.install.returncode ≠ 0
  · simp [hi, with_extra_attrs]
  · rcases he : enrich env with e | d
    · simp [hi, he, Except.map]
    · by_cases hk : env.check.returncode ≠ 0 <;>
        simp [hi, he, hk, Except.map, check_step_eval, with_extra_attrs]

theorem cleanPhase_congr (pip_command : List String) (clean : Bool)
    (env env' : PipEnv) (h1 : env'.freeze = env.freeze)
    (h2 : env'.uninstall = env.uninstall) :
    cleanPhase pip_command clean env' = cleanPhase pip_command clean env := by
  unfold cleanPhase
  rw [h1, h2]

theorem run_error_of_clean (pip_command packages : List String) (clean : Bool)
    (env : PipEnv) (e : PyErr) (hc : cleanPhase pip_command clean env = .error e) :
    run pip_command packages clean env = .error e := by
  unfold run
  rw [hc]

theorem run_error_clean_ok (pip_command packages : List String) (clean : Bool)
    (env : PipEnv) (fs : Fs) (e : PyErr)
    (hc : cleanPhase pip_command clean env = .ok fs)
    (h : run pip_command packages clean env = .error e) :
    env.install.returncode = 0 ∧ enrich env = .error e := by
  rw [run_eval pip_command packages clean env fs hc] at h
  by_cases hi : env.install.returncode ≠ 0
  · rw [if_pos hi] at h
    exact absurd h (by simp)
  · rw [if_neg hi] at h
    rcases he : enrich env with e' | d
    · rw [he] at h
      simp only [Except.error.injEq] at h
      exact ⟨not_not.mp hi, congrArg Except.error h⟩
    · rw [he] at h
      by_cases hk : env.check.returncode ≠ 0 <;> simp [hk] at h

theorem run_error_inv (pip_command packages : List String) (clean : Bool)
    (env : PipEnv) (e : PyErr)
    (h : run pip_command packages clean env = .error e) :
    (clean = true ∧
      (e = PyErr.pip { command := pip_command ++ ["freeze"],
                       returncode := env.freeze.returncode,
                       stderr_path := "freeze-error.txt" } ∨
       e = PyErr.pip { command := pip_command ++ ["uninstall", "--yes", "-r", "requirements-old.txt"],
                       returncode := env.uninstall.returncode,
                       stderr_path := "uninstall-error.txt" })) ∨
    (env.install.returncode = 0 ∧ enrich env = .error e) := by
  cases clean with
  | false =>
    exact Or.inr (run_error_clean_ok pip_command packages false env [] e
      (cleanPhase_false_eval pip_command env) h)
  | true =>
    by_cases hf : env.freeze.returncode ≠ 0
    · have hc : cleanPhase pip_command true env =
          .error (.pip { command := pip_command ++ ["freeze"],
                         returncode := env.freeze.returncode,
                         stderr_path := "freeze-error.txt" }) := by
        rw [cleanPhase_true_eval, if_pos hf]
      rw [run_error_of_clean pip_command packages true env _ hc] at h
      simp only [Except.error.injEq] at h
      exact Or.inl ⟨rfl, Or.inl h.symm⟩
    · by_cases hl : env.freeze.stdout.length > 0
      · by_cases hu : env.uninstall.returncode ≠ 0
        · have hc : cleanPhase pip_command true env =
              .error (.pip { command := pip_command ++ ["uninstall", "--yes", "-r", "requirements-old.txt"],
                             returncode := env.uninstall.returncode,
                             stderr_path := "uninstall-error.txt" }) := by
            rw [cleanPhase_true_eval, if_neg hf, if_pos hl, if_pos hu]
          rw [run_error_of_clean pip_command packages true env _ hc] at h
          simp only [Except.error.injEq] at h
          exact Or.inl ⟨rfl, Or.inr h.symm⟩
        · have hc : cleanPhase pip_command true env = .ok
              (setKeyA (setKeyA (setKeyA (setKeyA [] "requirements-old.txt" env.freeze.stdout)
                 "freeze-error.txt" env.freeze.stderr)
                 "uninstall-out.txt" env.uninstall.stdout)
                 "uninstall-error.txt" env.uninstall.stderr) := by
            rw [cleanPhase_true_eval, if_neg hf, if_pos hl, if_neg hu]
          exact Or.inr (run_error_clean_ok pip_command packages true env _ e hc h)
      · have hc : cleanPhase pip_command true env = .ok
            (setKeyA (setKeyA [] "requirements-old.txt" env.freeze.stdout)
               "freeze-error.txt" env.freeze.stderr) := by
          rw [cleanPhase_true_eval, if_neg hf, if_neg hl]
        exact Or.inr (run_error_clean_ok pip_command packages true env _ e hc h)

/-! Lemmas about the enrichment merge. -/

theorem mergeLatest_is_latest_iff (outdated_pkgs : List (Option String × Option String))
    (n v : Option String) :
    ((mergeLatest outdated_pkgs n v).2 = true ↔ (mergeLatest outdated_pkgs n v).1 = v) := by
  rcases ho : lookupA outdated_pkgs n with _ | lv
  · simp [mergeLatest, ho]
  · by_cases hv : lv = v <;> simp [mergeLatest, ho, hv]

theorem mergeLatest_absent (outdated_pkgs : List (Option String × Option String))
    (n v : Option String) (h : lookupA outdated_pkgs n = none) :
    mergeLatest outdated_pkgs n v = (v, true) := by
  simp [mergeLatest, h]

theorem lookupA_buildOutdated_aux (l : List OutdatedEntry) (n : Option String)
    (h : n ∉ l.map OutdatedEntry.name) :
    ∀ d : List (Option String × Option String),
      lookupA (l.foldl (fun d pkg => setKeyA d pkg.name pkg.latest_version) d) n =
        lookupA d n := by
  induction l with
  | nil => intro d; rfl
  | cons hd t ih =>
    intro d
    simp only [List.map_cons, List.mem_cons, not_or] at h
    rw [List.foldl_cons, ih h.2, lookupA_setKeyA_ne _ _ _ _ h.1]

theorem lookupA_buildOutdated_none (l : List OutdatedEntry) (n : Option String)
    (h : n ∉ l.map OutdatedEntry.name) : lookupA (buildOutdated l) n = none :=
  (lookupA_buildOutdated_aux l n h []).trans rfl

theorem listIter_ok_dict (registry : Option String → Option String → RegistryResponse)
    (now : Nat → String) (outdated_pkgs : List (Option String × Option String))
    (st : ListState) (pkg : PkgEntry) (st' : ListState)
    (h : listIter registry now outdated_pkgs st pkg = .ok st') :
    ∃ info : PkgInfo,
      st'.pkg_version_date = setKeyA st.pkg_version_date pkg.name info ∧
      info.installed_version = pkg.version ∧
      info.latest_version = (mergeLatest outdated_pkgs pkg.name pkg.version).1 ∧
      info.is_latest = (mergeLatest outdated_pkgs pkg.name pkg.version).2 ∧
      info.current_time = now st.idx := by
  unfold listIter at h
  dsimp only at h
  rcases hc : call_pypi_json_api registry pkg.name
      (mergeLatest outdated_pkgs pkg.name pkg.version).1 with e | res
  · rw [hc] at h
    exact absurd h (by simp)
  · rw [hc] at h
    rcases res with _ | result
    · dsimp only at h
      simp only [Except.ok.injEq] at h
      subst h
      exact ⟨_, rfl, rfl, rfl, rfl, rfl⟩
    · dsimp only at h
      rcases hr : result.releases with _ | rel
      · rw [hr] at h
        dsimp only at h
        rcases hsl : st.latest_release with _ | lr
        · rw [hsl] at h
          exact absurd h (by simp)
        · rw [hsl] at h
          dsimp only at h
          rcases hsi : st.installed_release with _ | ir
          · rw [hsi] at h
            exact absurd h (by simp)
          · rw [hsi] at h
            simp only [Except.ok.injEq] at h
            subst h
            exact ⟨_, rfl, rfl, rfl, rfl, rfl⟩
      · rw [hr] at h
        dsimp only at h
        simp only [Except.ok.injEq] at h
        subst h
        exact ⟨_, rfl, rfl, rfl, rfl, rfl⟩

theorem listLoop_latest_inv (registry : Option String → Option String → RegistryResponse)
    (now : Nat → String) (outdated_pkgs : List (Option String × Option String)) :
    ∀ (l : List PkgEntry) (st st' : ListState),
      listLoop registry now outdated_pkgs st l = .ok st' →
      (∀ n info, lookupA st.pkg_version_date n = some info → latestProp outdated_pkgs n info) →
      ∀ n info, lookupA st'.pkg_version_date n = some info → latestProp outdated_pkgs n info := by
  intro l
  induction l with
  | nil =>
    intro st st' h hst
    unfold listLoop at h
    simp only [Except.ok.injEq] at h
    subst h
    exact hst
  | cons pkg rest ih =>
    intro st st' h hst
    unfold listLoop at h
    rcases hstep : listIter registry now outdated_pkgs st pkg with e | st1
    · rw [hstep] at h
      exact absurd h (by simp)
    · rw [hstep] at h
      refine ih st1 st' h ?_
      obtain ⟨info0, hdict, hiv, hlv, hil, _⟩ := listIter_ok_dict _ _ _ _ _ _ hstep
      intro n info hlk
      rw [hdict, lookupA_setKeyA] at hlk
      by_cases hn : n = pkg.name
      · rw [if_pos hn] at hlk
        have hinfo : info = info0 := by
          simpa using hlk.symm
        subst hinfo
        constructor
        · rw [hil, hlv, hiv]
          exact mergeLatest_is_latest_iff outdated_pkgs pkg.name pkg.version
        · intro habs
          rw [hn] at habs
          have hm := mergeLatest_absent outdated_pkgs pkg.name pkg.version habs
          refine ⟨?_, ?_⟩
          · rw [hlv, hiv, hm]
          · rw [hil, hm]
      · rw [if_neg hn] at hlk
        exact hst n info hlk

theorem listLoop_keys (registry : Option String → Option String → RegistryResponse)
    (now : Nat → String) (outdated_pkgs : List (Option String × Option String)) :
    ∀ (l : List PkgEntry) (st st' : ListState),
      listLoop registry now outdated_pkgs st l = .ok st' →
      (∀ n, n ∈ keysA st'.pkg_version_date ↔
         n ∈ keysA st.pkg_version_date ∨ n ∈ l.map PkgEntry.name) ∧
      ((keysA st.pkg_version_date).Nodup → (keysA st'.pkg_version_date).Nodup) := by
  intro l
  induction l with
  | nil =>
    intro st st' h
    unfold listLoop at h
    simp only [Except.ok.injEq] at h
    subst h
    exact ⟨fun n => by simp, id⟩
  | cons pkg rest ih =>
    intro st st' h
    unfold listLoop at h
    rcases hstep : listIter registry now outdated_pkgs st pkg with e | st1
    · rw [hstep] at h
      exact absurd h (by simp)
    · rw [hstep] at h
      obtain ⟨info0, hdict, _, _, _, _⟩ := listIter_ok_dict _ _ _ _ _ _ hstep
      obtain ⟨hkeys, hnd⟩ := ih st1 st' h
      constructor
      · intro n
        rw [hkeys n, hdict, mem_keysA_setKeyA]
        simp only [List.map_cons, List.mem_cons]
        tauto
      · intro hnd0
        exact hnd (by rw [hdict]; exact nodup_keysA_setKeyA _ _ _ hnd0)

theorem listStep_latest (registry : Option String → Option String → RegistryResponse)
    (now : Nat → String) (pip_list_result : List PkgEntry)
    (pip_list_latest_result : List OutdatedEntry) (m : DepInfo)
    (h : listStep registry now pip_list_result pip_list_latest_result = .ok m) :
    ∀ n info, lookupA m n = some info →
      latestProp (buildOutdated pip_list_latest_result) n info := by
  unfold listStep at h
  rcases hl : listLoop registry now (buildOutdated pip_list_latest_result)
      { pkg_version_date := [], latest_release := none,
        installed_release := none, idx := 0 } pip_list_result with e | st
  · rw [hl] at h
    exact absurd h (by simp)
  · rw [hl] at h
    simp only [Except.ok.injEq] at h
    subst h
    exact listLoop_latest_inv registry now _ pip_list_result _ st hl
      (fun n info hlk => absurd hlk (by simp [lookupA]))

theorem listStep_keys (registry : Option String → Option String → RegistryResponse)
    (now : Nat → String) (pip_list_result : List PkgEntry)
    (pip_list_latest_result : List OutdatedEntry) (m : DepInfo)
    (h : listStep registry now pip_list_result pip_list_latest_result = .ok m) :
    (keysA m).Nodup ∧
    (∀ n, n ∈ keysA m ↔ n ∈ pip_list_result.map PkgEntry.name) := by
  unfold listStep at h
  rcases hl : listLoop registry now (buildOutdated pip_list_latest_result)
      { pkg_version_date := [], latest_release := none,
        installed_release := none, idx := 0 } pip_list_result with e | st
  · rw [hl] at h
    exact absurd h (by simp)
  · rw [hl] at h
    simp only [Except.ok.injEq] at h
    subst h
    obtain ⟨hkeys, hnd⟩ := listLoop_keys registry now _ pip_list_result _ st hl
    refine ⟨hnd (by simp [keysA]), fun n => ?_⟩
    rw [hkeys n]
    simp [keysA]

theorem eraseD_setKeyA (d : DepInfo) (k : Option String) (v : PkgInfo) :
    eraseD (setKeyA d k v) = setKeyA (eraseD d) k (eraseT v) := by
  induction d with
  | nil => rfl
  | cons hd t ih =>
    obtain ⟨k0, v0⟩ := hd
    have ih' := ih
    simp only [eraseD] at ih'
    by_cases h0 : k0 = k <;> simp [setKeyA, eraseD, h0, ih']

theorem listIter_congr (registry : Option String → Option String → RegistryResponse)
    (n1 n2 : Nat → String) (outdated_pkgs : List (Option String × Option String))
    (s1 s2 : ListState) (pkg : PkgEntry) (h : stR s1 s2) :
    exR (listIter registry n1 outdated_pkgs s1 pkg)
      (listIter registry n2 outdated_pkgs s2 pkg) := by
  obtain ⟨hd, hlr, hir, hidx⟩ := h
  unfold listIter
  dsimp only
  rcases hc : call_pypi_json_api registry pkg.name
      (mergeLatest outdated_pkgs pkg.name pkg.version).1 with e | res
  · simp [exR]
  · rcases res with _ | result
    · dsimp only
      simp [exR, stR, eraseD_setKeyA, eraseT, hd, hidx, hlr, hir]
    · dsimp only
      rcases hr : result.releases with _ | rel
      · rw [hlr, hir]
        rcases hsl : s2.latest_release with _ | lr
        · simp [exR]
        · dsimp only
          rcases hsi : s2.installed_release with _ | ir
          · simp [exR]
          · dsimp only
            simp [exR, stR, eraseD_setKeyA, eraseT, hd, hidx]
      · dsimp only
        simp [exR, stR, eraseD_setKeyA, eraseT, hd, hidx, hlr, hir]

theorem listLoop_congr (registry : Option String → Option String → RegistryResponse)
    (n1 n2 : Nat → String) (outdated_pkgs : List (Option String × Option String)) :
    ∀ (l : List PkgEntry) (s1 s2 : ListState), stR s1 s2 →
      exR (listLoop registry n1 outdated_pkgs s1 l)
        (listLoop registry n2 outdated_pkgs s2 l) := by
  intro l
  induction l with
  | nil =>
    intro s1 s2 h
    simpa [listLoop, exR] using h
  | cons pkg rest ih =>
    intro s1 s2 h
    unfold listLoop
    have hstep := listIter_congr registry n1 n2 outdated_pkgs s1 s2 pkg h
    rcases h1 : listIter registry n1 outdated_pkgs s1 pkg with e1 | t1 <;>
      rcases h2 : listIter registry n2 outdated_pkgs s2 pkg with e2 | t2 <;>
      rw [h1, h2] at hstep
    · dsimp only
      exact hstep
    · simp only [exR] at hstep
    · simp only [exR] at hstep
    · dsimp only
      exact ih t1 t2 hstep


/-! The claims. -/

/-- C1: for every requested package list, when the install command exits
non-zero, any result the run returns is INSTALL_ERROR with the captured
install stderr as its diagnostic text and no dependency report; and the run's
outcome is unchanged under arbitrary replacement of the consistency-check,
listing-parse, registry and clock parts of the environment — the enrichment
and consistency-check steps are not executed. -/
theorem claim_C1_install_error (pip_command packages : List String) (clean : Bool)
    (env env' : PipEnv) (r : PipCheckResult)
    (hf : env'.freeze = env.freeze) (hu : env'.uninstall = env.uninstall)
    (hi : env'.install = env.install) (hrc : env.install.returncode ≠ 0) :
    (run pip_command packages clean env = .ok r →
       r = { packages := packages, result_type := .INSTALL_ERROR,
             result_text := some env.install.stderr, dependency_info := none }) ∧
    run pip_command packages clean env = run pip_command packages clean env' := by
  have hcc : cleanPhase pip_command clean env' = cleanPhase pip_command clean env :=
    cleanPhase_congr pip_command clean env env' hf hu
  constructor
  · intro h
    rcases hc : cleanPhase pip_command clean env with e | fs
    · rw [run_error_of_clean pip_command packages clean env e hc] at h
      exact absurd h (by simp)
    · rw [run_eval pip_command packages clean env fs hc, if_pos hrc] at h
      simp only [Except.ok.injEq] at h
      exact h.symm
  · rcases hc : cleanPhase pip_command clean env with e | fs
    · rw [run_error_of_clean pip_command packages clean env e hc,
          run_error_of_clean pip_command packages clean env' e (hcc.trans hc)]
    · rw [run_eval pip_command packages clean env fs hc,
          run_eval pip_command packages clean env' fs (hcc.trans hc), hi]
      simp [hrc]

/-- Witness for C1: a concrete failing install, with a second environment
differing in check outcome, registry and list parsing. -/
theorem claim_C1_witness :
    envInstallFail.install.returncode ≠ 0 ∧
    run ["pip3"] ["broken"] false envInstallFail =
      run ["pip3"] ["broken"] false envInstallFail2 :=
  ⟨by decide,
   (claim_C1_install_error ["pip3"] ["broken"] false envInstallFail envInstallFail2
      rInstallW rfl rfl rfl (by decide)).2⟩

/-- C2: for every requested package list, when the install command exits zero
and the run returns a result, the result kind comes from the consistency
check: a non-zero check exit gives CHECK_WARNING with the check step's
captured stdout as diagnostic text, a zero check exit gives SUCCESS with no
diagnostic text. -/
theorem claim_C2_check_classification (pip_command packages : List String)
    (clean : Bool) (env : PipEnv) (r : PipCheckResult)
    (h : run pip_command packages clean env = .ok r)
    (hrc : env.install.returncode = 0) :
    (env.check.returncode ≠ 0 →
       r.result_type = .CHECK_WARNING ∧ r.result_text = some env.check.stdout) ∧
    (env.check.returncode = 0 →
       r.result_type = .SUCCESS ∧ r.result_text = none) := by
  rcases hc : cleanPhase pip_command clean env with e | fs
  · rw [run_error_of_clean pip_command packages clean env e hc] at h
    exact absurd h (by simp)
  · rw [run_eval pip_command packages clean env fs hc,
        if_neg (by simp [hrc])] at h
    rcases he : enrich env with e | d
    · rw [he] at h
      exact absurd h (by simp)
    · rw [he] at h
      dsimp only at h
      by_cases hk : env.check.returncode ≠ 0
      · rw [if_pos hk] at h
        simp only [Except.ok.injEq] at h
        subst h
        exact ⟨fun _ => ⟨rfl, rfl⟩, fun h0 => absurd h0 hk⟩
      · rw [if_neg hk] at h
        simp only [Except.ok.injEq] at h
        subst h
        exact ⟨fun h0 => absurd h0 hk, fun _ => ⟨rfl, rfl⟩⟩

/-- Witness for C2: a concrete run whose check exits 1 with stdout
`conflict`. -/
theorem claim_C2_witness :
    envWarn.check.returncode ≠ 0 ∧
    rWarnW.result_type = .CHECK_WARNING ∧
    rWarnW.result_text = some envWarn.check.stdout :=
  ⟨by decide,
   ((claim_C2_check_classification ["pip3"] ["a"] false envWarn rWarnW
      rfl rfl).1 (by decide)).1,
   ((claim_C2_check_classification ["pip3"] ["a"] false envWarn rWarnW
      rfl rfl).1 (by decide)).2⟩

/-- C3: every result a run returns satisfies both invariants: the dependency
report is present exactly when the kind is not INSTALL_ERROR, and the
diagnostic text is present exactly when the kind is not SUCCESS. -/
theorem claim_C3_result_invariants (pip_command packages : List String)
    (clean : Bool) (env : PipEnv) (r : PipCheckResult)
    (h : run pip_command packages clean env = .ok r) :
    (r.dependency_info.isSome = true ↔ r.result_type ≠ PipCheckResultType.INSTALL_ERROR) ∧
    (r.result_text.isSome = true ↔ r.result_type ≠ PipCheckResultType.SUCCESS) := by
  rcases hc : cleanPhase pip_command clean env with e | fs
  · rw [run_error_of_clean pip_command packages clean env e hc] at h
    exact absurd h (by simp)
  · rw [run_eval pip_command packages clean env fs hc] at h
    by_cases hi : env.install.returncode ≠ 0
    · rw [if_pos hi] at h
      simp only [Except.ok.injEq] at h
      subst h
      simp
    · rw [if_neg hi] at h
      rcases he : enrich env with e | d
      · rw [he] at h
        exact absurd h (by simp)
      · rw [he] at h
        dsimp only at h
        by_cases hk : env.check.returncode ≠ 0
        · rw [if_pos hk] at h
          simp only [Except.ok.injEq] at h
          subst h
          simp
        · rw [if_neg hk] at h
          simp only [Except.ok.injEq] at h
          subst h
          simp

/-- Witness for C3 at a concrete successful run. -/
theorem claim_C3_witness :
    run ["pip3"] ["a"] false envSuccess = .ok rSuccessW ∧
    ((rSuccessW.dependency_info.isSome = true ↔
        rSuccessW.result_type ≠ PipCheckResultType.INSTALL_ERROR) ∧
     (rSuccessW.result_text.isSome = true ↔
        rSuccessW.result_type ≠ PipCheckResultType.SUCCESS)) :=
  ⟨rfl, claim_C3_result_invariants ["pip3"] ["a"] false envSuccess rSuccessW rfl⟩

/-- C4: the code contradicts the claim's null-degradation guarantee.  With a
single installed package whose registry response is a well-formed document
lacking a `releases` mapping, the enrichment loop reads the never-assigned
local `latest_release` (Python `UnboundLocalError`) instead of producing null
timestamps; and when an earlier package did bind the locals, the later
package's snapshot silently carries the earlier package's upload time
(`TA`, package `a`'s) in both timestamp fields instead of nulls. -/
theorem claim_C4_code_bug_eval :
    listStep regNoRel nowT [{ name := some "a", version := some "1.0" }] [] =
      .error (PyErr.nameError "latest_release") ∧
    listStep regStale nowT instW [] =
      .ok [(some "a", infoStaleA), (some "b", infoStaleB)] ∧
    infoStaleB.latest_version_time = some "TA" ∧
    infoStaleB.installed_version_time = some "TA" :=
  ⟨rfl, rfl, rfl, rfl⟩

/-- C5: in every produced snapshot, `is_latest` holds exactly when the
reported `latest_version` equals the `installed_version` (value equality,
including for packages listed as outdated with an equal version string), and
a package whose name is absent from the outdated list gets
`latest_version = installed_version` with `is_latest` true. -/
theorem claim_C5_is_latest (registry : Option String → Option String → RegistryResponse)
    (now : Nat → String) (pip_list_result : List PkgEntry)
    (pip_list_latest_result : List OutdatedEntry) (m : DepInfo)
    (n : Option String) (info : PkgInfo)
    (h : listStep registry now pip_list_result pip_list_latest_result = .ok m)
    (h2 : lookupA m n = some info) :
    (info.is_latest = true ↔ info.latest_version = info.installed_version) ∧
    (n ∉ pip_list_latest_result.map OutdatedEntry.name →
       info.latest_version = info.installed_version ∧ info.is_latest = true) := by
  have hp := listStep_latest registry now pip_list_result pip_list_latest_result m h n info h2
  exact ⟨hp.1, fun hn => hp.2 (lookupA_buildOutdated_none pip_list_latest_result n hn)⟩

/-- Witness for C5: package `b` appears in the outdated list with a latest
version equal to its installed version and is still reported latest. -/
theorem claim_C5_witness :
    listStep regHttp nowT instW outdW = .ok mW ∧
    lookupA mW (some "b") = some infoBW ∧
    ((infoBW.is_latest = true ↔ infoBW.latest_version = infoBW.installed_version) ∧
     (some "b" ∉ outdW.map OutdatedEntry.name →
        infoBW.latest_version = infoBW.installed_version ∧ infoBW.is_latest = true)) :=
  ⟨rfl, rfl, claim_C5_is_latest regHttp nowT instW outdW mW (some "b") infoBW rfl rfl⟩

/-- C6 (amended): a structured PipError reaches the caller only out of the
clean phase — raised by the freeze-snapshot command or by the uninstall
command; install and consistency-check failures are always classified into
the result kind; but the claim's second half fails as stated: an enrichment
failure (for instance a non-HTTP registry error) propagates as a raised
non-PipError exception, so the caller receives the clean-phase PipError, a
fully-formed CheckResult, or a propagated enrichment exception. -/
theorem claim_C6_amended (pip_command packages : List String) (clean : Bool)
    (env : PipEnv) (e : PyErr)
    (h : run pip_command packages clean env = .error e) :
    (clean = true ∧
      (e = PyErr.pip { command := pip_command ++ ["freeze"],
                       returncode := env.freeze.returncode,
                       stderr_path := "freeze-error.txt" } ∨
       e = PyErr.pip { command := pip_command ++ ["uninstall", "--yes", "-r", "requirements-old.txt"],
                       returncode := env.uninstall.returncode,
                       stderr_path := "uninstall-error.txt" })) ∨
    (env.install.returncode = 0 ∧ enrich env = .error e) :=
  run_error_inv pip_command packages clean env e h

/-- Counterexample for C6 as stated: with a network-level registry failure
the run neither returns a result nor raises a PipError — it propagates the
registry exception. -/
theorem claim_C6_counterexample :
    run ["pip3"] ["a"] false envRegErr = .error (PyErr.registryError "connection refused") ∧
    returnsResult (run ["pip3"] ["a"] false envRegErr) = false ∧
    raisesPip (run ["pip3"] ["a"] false envRegErr) = false :=
  ⟨rfl, rfl, rfl⟩

/-- Witness for the amended C6 at a concrete failing uninstall. -/
theorem claim_C6_witness :
    run ["pip3"] ["a"] true envUninstallFail = .error (PyErr.pip dUW) ∧
    ((true = true ∧
       (PyErr.pip dUW = PyErr.pip { command := ["pip3"] ++ ["freeze"],
                                    returncode := envUninstallFail.freeze.returncode,
                                    stderr_path := "freeze-error.txt" } ∨
        PyErr.pip dUW = PyErr.pip { command := ["pip3"] ++ ["uninstall", "--yes", "-r", "requirements-old.txt"],
                                    returncode := envUninstallFail.uninstall.returncode,
                                    stderr_path := "uninstall-error.txt" })) ∨
     (envUninstallFail.install.returncode = 0 ∧
        enrich envUninstallFail = .error (PyErr.pip dUW))) :=
  ⟨rfl, claim_C6_amended ["pip3"] ["a"] true envUninstallFail (PyErr.pip dUW) rfl⟩

/-- C7: the command runner writes both captured streams to the two
caller-given files and returns only the exit code: with the fatal flag and a
non-zero exit it fails with the structured error carrying exactly the
command, the exit code and the stderr file path; without the fatal flag it
returns the exit code unconditionally; every other file is untouched. -/
theorem claim_C7_run_command (fs : Fs) (command : List String)
    (stdout_path stderr_path : String) (out : CmdOut) (b : Bool)
    (hne : stdout_path ≠ stderr_path) :
    (out.returncode ≠ 0 → b = true →
       (runCommand fs command stdout_path stderr_path out b).2 =
         .error { command := command, returncode := out.returncode,
                  stderr_path := stderr_path }) ∧
    (b = false →
       (runCommand fs command stdout_path stderr_path out b).2 = .ok out.returncode) ∧
    (out.returncode = 0 →
       (runCommand fs command stdout_path stderr_path out b).2 = .ok out.returncode) ∧
    readFs (runCommand fs command stdout_path stderr_path out b).1 stdout_path =
      some out.stdout ∧
    readFs (runCommand fs command stdout_path stderr_path out b).1 stderr_path =
      some out.stderr ∧
    (∀ p, p ≠ stdout_path → p ≠ stderr_path →
       readFs (runCommand fs command stdout_path stderr_path out b).1 p = readFs fs p) := by
  refine ⟨?_, ?_, ?_, ?_, ?_, ?_⟩
  · intro h hb
    simp [runCommand, h, hb]
  · intro hb
    simp [runCommand, hb]
  · intro h
    simp [runCommand, h]
  · rw [runCommand_fst, readFs,
      lookupA_setKeyA_ne (setKeyA fs stdout_path out.stdout) stderr_path stdout_path
        out.stderr hne,
      lookupA_setKeyA_self]
  · rw [runCommand_fst, readFs, lookupA_setKeyA_self]
  · intro p hp1 hp2
    rw [runCommand_fst, readFs,
      lookupA_setKeyA_ne (setKeyA fs stdout_path out.stdout) stderr_path p
        out.stderr hp2,
      lookupA_setKeyA_ne fs stdout_path p out.stdout hp1, readFs]

/-- Witness for C7 at a concrete fatal invocation. -/
theorem claim_C7_witness :
    ("o.txt" : String) ≠ "e.txt" ∧
    (runCommand [] ["pip3", "check"] "o.txt" "e.txt"
        { returncode := 1, stdout := "sout", stderr := "serr" } true).2 =
      .error { command := ["pip3", "check"], returncode := 1, stderr_path := "e.txt" } ∧
    readFs (runCommand [] ["pip3", "check"] "o.txt" "e.txt"
        { returncode := 1, stdout := "sout", stderr := "serr" } true).1 "o.txt" =
      some "sout" ∧
    readFs (runCommand [] ["pip3", "check"] "o.txt" "e.txt"
        { returncode := 1, stdout := "sout", stderr := "serr" } true).1 "e.txt" =
      some "serr" :=
  ⟨by decide,
   (claim_C7_run_command [] ["pip3", "check"] "o.txt" "e.txt"
      { returncode := 1, stdout := "sout", stderr := "serr" } true (by decide)).1
     (by decide) rfl,
   (claim_C7_run_command [] ["pip3", "check"] "o.txt" "e.txt"
      { returncode := 1, stdout := "sout", stderr := "serr" } true (by decide)).2.2.2.1,
   (claim_C7_run_command [] ["pip3", "check"] "o.txt" "e.txt"
      { returncode := 1, stdout := "sout", stderr := "serr" } true (by decide)).2.2.2.2.1⟩

/-- C8: enrichment is deterministic up to the observation timestamp: over the
same installed list, outdated list, and registry responses, two runs of the
enrichment step differing only in the wall clock produce reports identical in
every snapshot field except `current_time` (and identical failures). -/
theorem claim_C8_enrichment_deterministic
    (registry : Option String → Option String → RegistryResponse)
    (pip_list_result : List PkgEntry) (pip_list_latest_result : List OutdatedEntry)
    (n1 n2 : Nat → String) :
    (listStep registry n1 pip_list_result pip_list_latest_result).map eraseD =
      (listStep registry n2 pip_list_result pip_list_latest_result).map eraseD := by
  have h := listLoop_congr registry n1 n2 (buildOutdated pip_list_latest_result)
    pip_list_result
    { pkg_version_date := [], latest_release := none, installed_release := none, idx := 0 }
    { pkg_version_date := [], latest_release := none, installed_release := none, idx := 0 }
    ⟨rfl, rfl, rfl, rfl⟩
  unfold listStep
  rcases h1 : listLoop registry n1 (buildOutdated pip_list_latest_result)
      { pkg_version_date := [], latest_release := none,
        installed_release := none, idx := 0 } pip_list_result with e1 | s1 <;>
    rcases h2 : listLoop registry n2 (buildOutdated pip_list_latest_result)
      { pkg_version_date := [], latest_release := none,
        installed_release := none, idx := 0 } pip_list_result with e2 | s2 <;>
    rw [h1, h2] at h <;> simp only [exR] at h
  · simp [Except.map, h]
  · obtain ⟨hd, h2lr, h2ir, h2idx⟩ := h
    simp [Except.map, hd]

/-- C9: the keys of the produced dependency report are exactly the names of
the installed-package list's entries, each bound once: a name appearing only
in the outdated list gains no entry, and every installed name has exactly one
snapshot. -/
theorem claim_C9_report_keys
    (registry : Option String → Option String → RegistryResponse)
    (now : Nat → String) (pip_list_result : List PkgEntry)
    (pip_list_latest_result : List OutdatedEntry) (m : DepInfo)
    (h : listStep registry now pip_list_result pip_list_latest_result = .ok m) :
    (keysA m).Nodup ∧
    (∀ n, n ∈ keysA m ↔ n ∈ pip_list_result.map PkgEntry.name) :=
  listStep_keys registry now pip_list_result pip_list_latest_result m h

/-- Witness for C9: `c` appears only in the outdated list and gains no
entry; installed `a` has one. -/
theorem claim_C9_witness :
    listStep regHttp nowT instW outdW9 = .ok mW ∧
    (keysA mW).Nodup ∧
    (some "c" ∈ keysA mW ↔ some "c" ∈ instW.map PkgEntry.name) ∧
    (some "a" ∈ keysA mW ↔ some "a" ∈ instW.map PkgEntry.name) :=
  ⟨rfl,
   (claim_C9_report_keys regHttp nowT instW outdW9 mW rfl).1,
   (claim_C9_report_keys regHttp nowT instW outdW9 mW rfl).2 (some "c"),
   (claim_C9_report_keys regHttp nowT instW outdW9 mW rfl).2 (some "a")⟩

/-- C10: the registry helper catches only HTTP error responses, returning
`none`; a failure of any other kind becomes a raised exception, and such an
enrichment exception propagates unchanged out of the public `check` entry
point, so the caller receives no result for that run. -/
theorem claim_C10_registry_errors
    (reg : Option String → Option String → RegistryResponse)
    (n v : Option String) (m : String) (pip_command packages : List String)
    (clean : Bool) (env : PipEnv) (fs : Fs) (e : PyErr) :
    (reg n v = .httpError → call_pypi_json_api reg n v = .ok none) ∧
    (reg n v = .otherError m →
       call_pypi_json_api reg n v = .error (.registryError m)) ∧
    (cleanPhase pip_command clean env = .ok fs → env.install.returncode = 0 →
       enrich env = .error e →
       check pip_command packages clean env = .error e) := by
  refine ⟨fun h => by simp [call_pypi_json_api, h],
          fun h => by simp [call_pypi_json_api, h], ?_⟩
  intro hc hrc he
  unfold check
  rw [run_eval pip_command packages clean env fs hc, if_neg (by simp [hrc]), he]

/-- Witness for C10: an HTTP error degrades to `none`, a network error
becomes a raised registry exception and escapes `check` unchanged. -/
theorem claim_C10_witness :
    regHttp (some "a") (some "1.0") = .httpError ∧
    call_pypi_json_api regHttp (some "a") (some "1.0") = .ok none ∧
    regErr (some "a") (some "1.0") = .otherError "connection refused" ∧
    call_pypi_json_api regErr (some "a") (some "1.0") =
      .error (.registryError "connection refused") ∧
    cleanPhase ["pip3"] false envRegErr = .ok [] ∧
    envRegErr.install.returncode = 0 ∧
    enrich envRegErr = .error (.registryError "connection refused") ∧
    check ["pip3"] ["a"] false envRegErr = .error (.registryError "connection refused") :=
  ⟨rfl,
   (claim_C10_registry_errors regHttp (some "a") (some "1.0") "connection refused"
      ["pip3"] ["a"] false envRegErr [] (.registryError "connection refused")).1 rfl,
   rfl,
   (claim_C10_registry_errors regErr (some "a") (some "1.0") "connection refused"
      ["pip3"] ["a"] false envRegErr [] (.registryError "connection refused")).2.1 rfl,
   rfl, rfl, rfl,
   (claim_C10_registry_errors regErr (some "a") (some "1.0") "connection refused"
      ["pip3"] ["a"] false envRegErr [] (.registryError "connection refused")).2.2
     rfl rfl rfl⟩
